import Mathlib

/-!
Verification of the rugo Parquet footer decoder.

This file gives a shallow embedding, in Lean 4, of the decoder implemented by

  * `src/rugo/parquet/metadata.cpp`   (Thrift FileMetaData parser, bloom filter)
  * `thrift.hpp`                      (Thrift Compact Protocol reader)
  * `metadata.hpp`                    (result structures)
  * `src/rugo/parquet/metadata_reader.pyx` (`decode_value`, `test_bloom_filter`)

and proves or refutes the claims of the natural-language specification.

Modelling conventions:

  * A byte buffer (`const uint8_t*` cursor between `p` and `end`) is a
    `List Nat`; bytes are values `< 256`.  Functions consume from the front of
    the list and return the remaining suffix, which models advancing `p`.
  * C++ exceptions (`std::runtime_error`) are modelled with `Except TErr`;
    the `TErr` constructors correspond to the distinct `throw` sites.
  * Unsigned 64/32-bit arithmetic is `Nat` with explicit `% 2 ^ 64` /
    `% 2 ^ 32` where the C++ type would wrap.  Signed narrowing casts
    (`(int16_t)`, `(int32_t)`) are explicit two's-complement truncations.
  * `while`-loops whose bodies consume input are written as fuel-indexed
    recursions; every loop iteration consumes at least one byte, so a fuel of
    `input length + 1` is always sufficient on the inputs considered here.
    Running out of fuel yields the artificial error `TErr.fuel`, which never
    occurs in any theorem below.
-/

namespace Rugo

/-- Errors thrown by the C++ decoder. `eof` is `runtime_error("EOF")` from
`TInput::readByte`, `invalidString` is `runtime_error("Invalid string length")`
from `ReadString`, `badMagic` is `runtime_error("Not a parquet file")` from
`ReadParquetMetadata`, and `fuel` is the artificial out-of-fuel marker of the
embedding (never reachable with adequate fuel). -/
inductive TErr where
  | eof
  | invalidString
  | badMagic
  | fuel
deriving DecidableEq, Repr

/-- Embeds the loop of `ReadVarint` (thrift.hpp): `result`, `shift` are the
accumulator state; each byte contributes its low 7 bits at `shift`, a clear
high bit terminates.  The C++ accumulator is `uint64_t`; bits at positions
= 64 (shift overflow, undefined behaviour in C++) are modelled as discarded. -/
def ReadVarintGo : List Nat → Nat → Nat → Except TErr (Nat × List Nat)
  | [], _, _ => .error .eof
  | b :: rest, result, shift =>
      let result := (result ||| ((b &&& 127) <<< shift)) % 2 ^ 64
      if b &&& 128 = 0 then .ok (result, rest)
      else ReadVarintGo rest result (shift + 7)

/-- `ReadVarint` from thrift.hpp: LEB128, low 7-bit groups first, high bit of
each byte is the continuation marker. -/
def ReadVarint (bs : List Nat) : Except TErr (Nat × List Nat) :=
  ReadVarintGo bs 0 0

/-- `ZigZagDecode` from thrift.hpp: `(n >> 1) ^ -(int64_t)(n & 1)`.  In two's
complement this equals `n/2` for even `n` and `-(n/2) - 1` for odd `n`. -/
def ZigZagDecode (n : Nat) : Int :=
  if n &&& 1 = 0 then ((n >>> 1 : Nat) : Int) else -((n >>> 1 : Nat) : Int) - 1

/-- Two's-complement truncation of an integer to `int16_t`. -/
def toInt16 (i : Int) : Int :=
  let m := i % 65536
  if m < 32768 then m else m - 65536

/-- Two's-complement truncation of an integer to `int32_t`. -/
def toInt32 (i : Int) : Int :=
  let m := i % 4294967296
  if m < 2147483648 then m else m - 4294967296

/-- `ReadI64` from thrift.hpp: zig-zag decoded varint. -/
def ReadI64 (bs : List Nat) : Except TErr (Int × List Nat) :=
  match ReadVarint bs with
  | .error e => .error e
  | .ok (v, rest) => .ok (ZigZagDecode v, rest)

/-- `ReadI32` from thrift.hpp: zig-zag decoded varint cast to `int32_t`. -/
def ReadI32 (bs : List Nat) : Except TErr (Int × List Nat) :=
  match ReadVarint bs with
  | .error e => .error e
  | .ok (v, rest) => .ok (toInt32 (ZigZagDecode v), rest)

/-- `ReadString` from thrift.hpp: varint length then that many raw bytes;
throws `Invalid string length` when the length exceeds the remaining input. -/
def ReadString (bs : List Nat) : Except TErr (List Nat × List Nat) :=
  match ReadVarint bs with
  | .error e => .error e
  | .ok (len, rest) =>
      if rest.length < len then .error .invalidString
      else .ok (rest.take len, rest.drop len)

/-- `FieldHeader` from thrift.hpp. -/
structure FieldHeader where
  id : Int
  type : Nat
deriving DecidableEq, Repr

/-- `ReadFieldHeader` from thrift.hpp.  A zero byte is STOP; otherwise the low
nibble is the wire type and the high nibble, when nonzero, is a delta added to
`last_id`; a zero high nibble means the absolute id follows as a plain varint
cast to `int16_t`.  Returns the header, the updated `last_id` (the C++ code
mutates it by reference) and the remaining bytes. -/
def ReadFieldHeader : List Nat → Int → Except TErr (FieldHeader × Int × List Nat)
  | [], _ => .error .eof
  | b :: rest, last_id =>
      if b = 0 then .ok (⟨-1, 0⟩, last_id, rest)
      else
        let ty := b &&& 15
        let modifier := b >>> 4
        if modifier = 0 then
          match ReadVarint rest with
          | .error e => .error e
          | .ok (v, rest') =>
              let fid := toInt16 (v : Int)
              .ok (⟨fid, ty⟩, fid, rest')
        else
          let fid := toInt16 (last_id + (modifier : Int))
          .ok (⟨fid, ty⟩, fid, rest)

/-- `ListHeader` from thrift.hpp. -/
structure ListHeader where
  elem_type : Nat
  size : Nat
deriving DecidableEq, Repr

/-- `ReadListHeader` from thrift.hpp: high nibble is the size (15 means a
varint with the true size follows, cast to `uint32_t`), low nibble the element
type. -/
def ReadListHeader : List Nat → Except TErr (ListHeader × List Nat)
  | [] => .error .eof
  | b :: rest =>
      let size := b >>> 4
      let elem_type := b &&& 15
      if size = 15 then
        match ReadVarint rest with
        | .error e => .error e
        | .ok (v, rest') => .ok (⟨elem_type, v % 2 ^ 32⟩, rest')
      else .ok (⟨elem_type, size⟩, rest)

mutual

/-- `SkipField` from thrift.hpp, fuel-indexed.  The `DOUBLE` case advances the
cursor by 8 bytes without a bounds check (`in.p += 8`), modelled by
`List.drop`.  Unknown wire types consume one byte (the permissive path of the
source).  The `MAP` case reads one byte whose high nibble is the size (15
meaning a varint follows), then, only when the size is nonzero, one key/value
type byte followed by that many key/value pairs. -/
def SkipField : Nat → Nat → List Nat → Except TErr (List Nat)
  | 0, _, _ => .error .fuel
  | fuel + 1, ty, bs =>
      if ty = 0 then .ok bs
      else if ty = 1 then .ok bs
      else if ty = 2 then .ok bs
      else if ty = 3 then
        match bs with
        | [] => .error .eof
        | _ :: rest => .ok rest
      else if ty = 4 then
        match ReadI32 bs with
        | .error e => .error e
        | .ok (_, rest) => .ok rest
      else if ty = 5 then
        match ReadI32 bs with
        | .error e => .error e
        | .ok (_, rest) => .ok rest
      else if ty = 6 then
        match ReadI64 bs with
        | .error e => .error e
        | .ok (_, rest) => .ok rest
      else if ty = 7 then .ok (bs.drop 8)
      else if ty = 8 then
        match ReadString bs with
        | .error e => .error e
        | .ok (_, rest) => .ok rest
      else if ty = 9 then
        match ReadListHeader bs with
        | .error e => .error e
        | .ok (lh, rest) => SkipFieldN fuel lh.elem_type lh.size rest
      else if ty = 10 then
        match ReadListHeader bs with
        | .error e => .error e
        | .ok (lh, rest) => SkipFieldN fuel lh.elem_type lh.size rest
      else if ty = 11 then
        match bs with
        | [] => .error .eof
        | b :: rest =>
            let size := b >>> 4
            if size = 0 then .ok rest
            else
              match
                (if size = 15 then
                  match ReadVarint rest with
                  | .error e => .error e
                  | .ok (v, rest') => .ok (v % 2 ^ 32, rest')
                else (.ok (size, rest) : Except TErr (Nat × List Nat))) with
              | .error e => .error e
              | .ok (size, rest') =>
                  match rest' with
                  | [] => .error .eof
                  | tb :: rest'' =>
                      SkipMapPairs fuel (tb >>> 4) (tb &&& 15) size rest''
      else if ty = 12 then SkipStructFields fuel 0 bs
      else
        match bs with
        | [] => .error .eof
        | _ :: rest => .ok rest
termination_by structural fuel ty bs => fuel

/-- The element loop of the LIST/SET cases of `SkipField`. -/
def SkipFieldN : Nat → Nat → Nat → List Nat → Except TErr (List Nat)
  | 0, _, _, _ => .error .fuel
  | _ + 1, _, 0, bs => .ok bs
  | fuel + 1, ty, n + 1, bs =>
      match SkipField fuel ty bs with
      | .error e => .error e
      | .ok rest => SkipFieldN fuel ty n rest
termination_by structural fuel ty n bs => fuel

/-- The key/value pair loop of the MAP case of `SkipField`. -/
def SkipMapPairs : Nat → Nat → Nat → Nat → List Nat → Except TErr (List Nat)
  | 0, _, _, _, _ => .error .fuel
  | _ + 1, _, _, 0, bs => .ok bs
  | fuel + 1, kt, vt, n + 1, bs =>
      match SkipField fuel kt bs with
      | .error e => .error e
      | .ok rest =>
          match SkipField fuel vt rest with
          | .error e => .error e
          | .ok rest' => SkipMapPairs fuel kt vt n rest'
termination_by structural fuel kt vt n bs => fuel

/-- The STRUCT case of `SkipField`: read field headers and skip the fields
until STOP.  Also models the identical inline key/value skipping loops of
`ParseColumnMeta` (metadata.cpp). -/
def SkipStructFields : Nat → Int → List Nat → Except TErr (List Nat)
  | 0, _, _ => .error .fuel
  | fuel + 1, last_id, bs =>
      match ReadFieldHeader bs last_id with
      | .error e => .error e
      | .ok (fh, last', rest) =>
          if fh.type = 0 then .ok rest
          else
            match SkipField fuel fh.type rest with
            | .error e => .error e
            | .ok rest' => SkipStructFields fuel last' rest'
termination_by structural fuel last bs => fuel

end

/-! Result structures, from `metadata.hpp`.  C++ `std::string` fields holding
text (`name`, `physical_type`, `logical_type`) are Lean `String`s; the binary
statistics fields (`min`, `max`) are raw byte lists. -/

/-- `ColumnStats` from metadata.hpp, with the C++ member initialisers as
default field values. -/
structure ColumnStats where
  name : String := ""
  physical_type : String := ""
  logical_type : String := ""
  min : List Nat := []
  max : List Nat := []
  null_count : Int := -1
  distinct_count : Int := -1
  bloom_offset : Int := -1
  bloom_length : Int := -1
deriving DecidableEq, Repr

/-- `RowGroupStats` from metadata.hpp. -/
structure RowGroupStats where
  num_rows : Int := 0
  total_byte_size : Int := 0
  columns : List ColumnStats := []
deriving DecidableEq, Repr

/-- `FileStats` from metadata.hpp. -/
structure FileStats where
  num_rows : Int := 0
  row_groups : List RowGroupStats := []
deriving DecidableEq, Repr

/-- The local `SchemaElement` struct of metadata.cpp. -/
structure SchemaElem where
  name : String := ""
  logical_type : String := ""
  num_children : Int := 0
deriving DecidableEq, Repr

/-- A default-constructed `ColumnStats`. -/
def emptyColumnStats : ColumnStats := {}

/-- Bytes of a C++ `std::string` viewed as text (one `Char` per byte). -/
def strOfBytes (l : List Nat) : String :=
  String.mk (l.map fun n => Char.ofNat n)

/-- `ParquetTypeToString` from metadata.cpp. -/
def ParquetTypeToString (t : Int) : String :=
  if t = 0 then "BOOLEAN"
  else if t = 1 then "INT32"
  else if t = 2 then "INT64"
  else if t = 3 then "INT96"
  else if t = 4 then "FLOAT"
  else if t = 5 then "DOUBLE"
  else if t = 6 then "BYTE_ARRAY"
  else if t = 7 then "FIXED_LEN_BYTE_ARRAY"
  else "UNKNOWN"

/-- `LogicalTypeToString` from metadata.cpp (legacy converted_type table). -/
def LogicalTypeToString (t : Int) : String :=
  if t = 1 then "STRING"
  else if t = 2 then "MAP"
  else if t = 3 then "LIST"
  else if t = 4 then "ENUM"
  else if t = 5 then "DECIMAL"
  else if t = 6 then "DATE"
  else if t = 7 then "TIME_MILLIS"
  else if t = 8 then "TIME_MICROS"
  else if t = 9 then "TIMESTAMP_MILLIS"
  else if t = 10 then "TIMESTAMP_MICROS"
  else if t = 11 then "UINT_8"
  else if t = 12 then "UINT_16"
  else if t = 13 then "UINT_32"
  else if t = 14 then "UINT_64"
  else if t = 15 then "INT_8"
  else if t = 16 then "INT_16"
  else if t = 17 then "INT_32"
  else if t = 18 then "INT_64"
  else if t = 19 then "JSON"
  else if t = 20 then "BSON"
  else if t = 21 then "INTERVAL"
  else ""

/-- The inner TIME loop of `ParseLogicalType` (metadata.cpp case 7): field 1
reads one byte (`is_adjusted_utc`, unused), field 2 reads the unit and returns
immediately (without consuming the enclosing STOP bytes, exactly as the C++
`return` does); other fields are skipped; STOP returns `TIME`. -/
def ParseTimeUnitLoop : Nat → List Nat → Int → Except TErr (String × List Nat)
  | 0, _, _ => .error .fuel
  | fuel + 1, bs, last_id =>
      match ReadFieldHeader bs last_id with
      | .error e => .error e
      | .ok (fh, last', rest) =>
          if fh.type = 0 then .ok ("TIME", rest)
          else if fh.id = 1 then
            match rest with
            | [] => .error .eof
            | _ :: rest' => ParseTimeUnitLoop fuel rest' last'
          else if fh.id = 2 then
            match ReadI32 rest with
            | .error e => .error e
            | .ok (unit, rest') =>
                if unit = 0 then .ok ("TIME_MILLIS", rest')
                else if unit = 1 then .ok ("TIME_MICROS", rest')
                else .ok ("TIME", rest')
          else
            match SkipField fuel fh.type rest with
            | .error e => .error e
            | .ok rest' => ParseTimeUnitLoop fuel rest' last'

/-- The inner TIMESTAMP loop of `ParseLogicalType` (metadata.cpp case 8). -/
def ParseTimestampUnitLoop : Nat → List Nat → Int → Except TErr (String × List Nat)
  | 0, _, _ => .error .fuel
  | fuel + 1, bs, last_id =>
      match ReadFieldHeader bs last_id with
      | .error e => .error e
      | .ok (fh, last', rest) =>
          if fh.type = 0 then .ok ("TIMESTAMP", rest)
          else if fh.id = 1 then
            match rest with
            | [] => .error .eof
            | _ :: rest' => ParseTimestampUnitLoop fuel rest' last'
          else if fh.id = 2 then
            match ReadI32 rest with
            | .error e => .error e
            | .ok (unit, rest') =>
                if unit = 0 then .ok ("TIMESTAMP_MILLIS", rest')
                else if unit = 1 then .ok ("TIMESTAMP_MICROS", rest')
                else .ok ("TIMESTAMP", rest')
          else
            match SkipField fuel fh.type rest with
            | .error e => .error e
            | .ok rest' => ParseTimestampUnitLoop fuel rest' last'

/-- The inner INTEGER loop of `ParseLogicalType` (metadata.cpp case 9):
field 1 reads one byte (`bit_width`, unused), field 2 reads one byte
(`is_signed`) and returns `INT` or `UINT`; STOP returns `INT`. -/
def ParseIntTypeLoop : Nat → List Nat → Int → Except TErr (String × List Nat)
  | 0, _, _ => .error .fuel
  | fuel + 1, bs, last_id =>
      match ReadFieldHeader bs last_id with
      | .error e => .error e
      | .ok (fh, last', rest) =>
          if fh.type = 0 then .ok ("INT", rest)
          else if fh.id = 1 then
            match rest with
            | [] => .error .eof
            | _ :: rest' => ParseIntTypeLoop fuel rest' last'
          else if fh.id = 2 then
            match rest with
            | [] => .error .eof
            | b :: rest' => if b ≠ 0 then .ok ("INT", rest') else .ok ("UINT", rest')
          else
            match SkipField fuel fh.type rest with
            | .error e => .error e
            | .ok rest' => ParseIntTypeLoop fuel rest' last'

/-- `ParseLogicalType` from metadata.cpp.  Most cases return as soon as the
union tag's field header is seen, without consuming the remaining bytes of
the struct (faithful to the C++ early `return`s). -/
def ParseLogicalTypeLoop : Nat → List Nat → Int → Except TErr (String × List Nat)
  | 0, _, _ => .error .fuel
  | fuel + 1, bs, last_id =>
      match ReadFieldHeader bs last_id with
      | .error e => .error e
      | .ok (fh, last', rest) =>
          if fh.type = 0 then .ok ("", rest)
          else if fh.id = 1 then .ok ("STRING", rest)
          else if fh.id = 2 then .ok ("MAP", rest)
          else if fh.id = 3 then .ok ("LIST", rest)
          else if fh.id = 4 then .ok ("ENUM", rest)
          else if fh.id = 5 then
            match SkipStructFields fuel 0 rest with
            | .error e => .error e
            | .ok rest' => .ok ("DECIMAL", rest')
          else if fh.id = 6 then .ok ("DATE", rest)
          else if fh.id = 7 then ParseTimeUnitLoop fuel rest 0
          else if fh.id = 8 then ParseTimestampUnitLoop fuel rest 0
          else if fh.id = 9 then ParseIntTypeLoop fuel rest 0
          else if fh.id = 10 then .ok ("JSON", rest)
          else if fh.id = 11 then .ok ("BSON", rest)
          else if fh.id = 12 then .ok ("UUID", rest)
          else if fh.id = 13 then .ok ("FLOAT16", rest)
          else
            match SkipField fuel fh.type rest with
            | .error e => .error e
            | .ok rest' => ParseLogicalTypeLoop fuel rest' last'

/-- `ParseSchemaElement` from metadata.cpp. -/
def ParseSchemaElementLoop : Nat → List Nat → Int → SchemaElem → Except TErr (SchemaElem × List Nat)
  | 0, _, _, _ => .error .fuel
  | fuel + 1, bs, last_id, elem =>
      match ReadFieldHeader bs last_id with
      | .error e => .error e
      | .ok (fh, last', rest) =>
          if fh.type = 0 then .ok (elem, rest)
          else if fh.id = 1 ∨ fh.id = 2 ∨ fh.id = 3 then
            match ReadI32 rest with
            | .error e => .error e
            | .ok (_, rest') => ParseSchemaElementLoop fuel rest' last' elem
          else if fh.id = 4 then
            match ReadString rest with
            | .error e => .error e
            | .ok (s, rest') =>
                ParseSchemaElementLoop fuel rest' last' { elem with name := strOfBytes s }
          else if fh.id = 5 then
            match ReadI32 rest with
            | .error e => .error e
            | .ok (n, rest') =>
                ParseSchemaElementLoop fuel rest' last' { elem with num_children := n }
          else if fh.id = 6 then
            match ReadI32 rest with
            | .error e => .error e
            | .ok (ct, rest') =>
                ParseSchemaElementLoop fuel rest' last'
                  { elem with logical_type := LogicalTypeToString ct }
          else if fh.id = 7 ∨ fh.id = 8 ∨ fh.id = 9 then
            match ReadI32 rest with
            | .error e => .error e
            | .ok (_, rest') => ParseSchemaElementLoop fuel rest' last' elem
          else if fh.id = 10 then
            match ParseLogicalTypeLoop fuel rest 0 with
            | .error e => .error e
            | .ok (logical, rest') =>
                ParseSchemaElementLoop fuel rest' last'
                  (if logical ≠ "" then { elem with logical_type := logical } else elem)
          else
            match SkipField fuel fh.type rest with
            | .error e => .error e
            | .ok rest' => ParseSchemaElementLoop fuel rest' last' elem

/-- The four local `std::string` accumulators of `ParseStatistics`. -/
structure StatsLocals where
  legacy_min : List Nat := []
  legacy_max : List Nat := []
  v2_min : List Nat := []
  v2_max : List Nat := []
deriving DecidableEq, Repr

/-- The field loop of `ParseStatistics` (metadata.cpp): field 1 is the legacy
`max`, 2 the legacy `min`, 3 `null_count`, 4 `distinct_count`, 5 `max_value`,
6 `min_value`; unknown fields are skipped. -/
def ParseStatisticsLoop : Nat → List Nat → Int → ColumnStats → StatsLocals →
    Except TErr (ColumnStats × StatsLocals × List Nat)
  | 0, _, _, _, _ => .error .fuel
  | fuel + 1, bs, last_id, cs, loc =>
      match ReadFieldHeader bs last_id with
      | .error e => .error e
      | .ok (fh, last', rest) =>
          if fh.type = 0 then .ok (cs, loc, rest)
          else if fh.id = 1 then
            match ReadString rest with
            | .error e => .error e
            | .ok (s, r) => ParseStatisticsLoop fuel r last' cs { loc with legacy_max := s }
          else if fh.id = 2 then
            match ReadString rest with
            | .error e => .error e
            | .ok (s, r) => ParseStatisticsLoop fuel r last' cs { loc with legacy_min := s }
          else if fh.id = 3 then
            match ReadI64 rest with
            | .error e => .error e
            | .ok (v, r) => ParseStatisticsLoop fuel r last' { cs with null_count := v } loc
          else if fh.id = 4 then
            match ReadI64 rest with
            | .error e => .error e
            | .ok (v, r) => ParseStatisticsLoop fuel r last' { cs with distinct_count := v } loc
          else if fh.id = 5 then
            match ReadString rest with
            | .error e => .error e
            | .ok (s, r) => ParseStatisticsLoop fuel r last' cs { loc with v2_max := s }
          else if fh.id = 6 then
            match ReadString rest with
            | .error e => .error e
            | .ok (s, r) => ParseStatisticsLoop fuel r last' cs { loc with v2_min := s }
          else
            match SkipField fuel fh.type rest with
            | .error e => .error e
            | .ok r => ParseStatisticsLoop fuel r last' cs loc

/-- `ParseStatistics` from metadata.cpp: after the field loop,
`cs.min = !v2_min.empty() ? v2_min : legacy_min` and likewise for `max`. -/
def ParseStatistics (fuel : Nat) (bs : List Nat) (cs : ColumnStats) :
    Except TErr (ColumnStats × List Nat) :=
  match ParseStatisticsLoop fuel bs 0 cs {} with
  | .error e => .error e
  | .ok (cs', loc, rest) =>
      .ok ({ cs' with
              min := if loc.v2_min ≠ [] then loc.v2_min else loc.legacy_min,
              max := if loc.v2_max ≠ [] then loc.v2_max else loc.legacy_max }, rest)

/-- The encodings loop of `ParseColumnMeta` case 2: read and discard `n`
varints. -/
def SkipVarintsN : Nat → List Nat → Except TErr (List Nat)
  | 0, bs => .ok bs
  | n + 1, bs =>
      match ReadVarint bs with
      | .error e => .error e
      | .ok (_, rest) => SkipVarintsN n rest

/-- The path_in_schema loop of `ParseColumnMeta` case 3: read `n` strings,
joining them with `'.'` (byte 46). -/
def ReadPathConcat : Nat → List Nat → List Nat → Except TErr (List Nat × List Nat)
  | 0, bs, name => .ok (name, bs)
  | n + 1, bs, name =>
      match ReadString bs with
      | .error e => .error e
      | .ok (part, rest) =>
          ReadPathConcat n rest (if name ≠ [] then name ++ 46 :: part else name ++ part)

/-- The key_value_metadata loop of `ParseColumnMeta` case 8: skip `n`
structs. -/
def SkipStructsN (fuel : Nat) : Nat → List Nat → Except TErr (List Nat)
  | 0, bs => .ok bs
  | n + 1, bs =>
      match SkipStructFields fuel 0 bs with
      | .error e => .error e
      | .ok rest => SkipStructsN fuel n rest

/-- `ParseColumnMeta` from metadata.cpp. -/
def ParseColumnMetaLoop : Nat → List Nat → Int → ColumnStats → Except TErr (ColumnStats × List Nat)
  | 0, _, _, _ => .error .fuel
  | fuel + 1, bs, last_id, cs =>
      match ReadFieldHeader bs last_id with
      | .error e => .error e
      | .ok (fh, last', rest) =>
          if fh.type = 0 then .ok (cs, rest)
          else if fh.id = 1 then
            match ReadI32 rest with
            | .error e => .error e
            | .ok (t, r) =>
                ParseColumnMetaLoop fuel r last' { cs with physical_type := ParquetTypeToString t }
          else if fh.id = 2 then
            match ReadListHeader rest with
            | .error e => .error e
            | .ok (lh, r) =>
                match SkipVarintsN lh.size r with
                | .error e => .error e
                | .ok r' => ParseColumnMetaLoop fuel r' last' cs
          else if fh.id = 3 then
            match ReadListHeader rest with
            | .error e => .error e
            | .ok (lh, r) =>
                match ReadPathConcat lh.size r [] with
                | .error e => .error e
                | .ok (nm, r') =>
                    ParseColumnMetaLoop fuel r' last' { cs with name := strOfBytes nm }
          else if fh.id = 4 then
            match ReadI32 rest with
            | .error e => .error e
            | .ok (_, r) => ParseColumnMetaLoop fuel r last' cs
          else if fh.id = 5 ∨ fh.id = 6 ∨ fh.id = 7 then
            match ReadI64 rest with
            | .error e => .error e
            | .ok (_, r) => ParseColumnMetaLoop fuel r last' cs
          else if fh.id = 8 then
            match ReadListHeader rest with
            | .error e => .error e
            | .ok (lh, r) =>
                match SkipStructsN fuel lh.size r with
                | .error e => .error e
                | .ok r' => ParseColumnMetaLoop fuel r' last' cs
          else if fh.id = 9 ∨ fh.id = 10 ∨ fh.id = 11 then
            match ReadI64 rest with
            | .error e => .error e
            | .ok (_, r) => ParseColumnMetaLoop fuel r last' cs
          else if fh.id = 12 then
            match ParseStatistics fuel rest cs with
            | .error e => .error e
            | .ok (cs', r) => ParseColumnMetaLoop fuel r last' cs'
          else if fh.id = 14 then
            match ReadI64 rest with
            | .error e => .error e
            | .ok (v, r) => ParseColumnMetaLoop fuel r last' { cs with bloom_offset := v }
          else if fh.id = 15 then
            match ReadI64 rest with
            | .error e => .error e
            | .ok (v, r) => ParseColumnMetaLoop fuel r last' { cs with bloom_length := v }
          else
            match SkipField fuel fh.type rest with
            | .error e => .error e
            | .ok r => ParseColumnMetaLoop fuel r last' cs

/-- `ParseColumnChunk` from metadata.cpp: field 1 (file_path) and 2
(file_offset) are read and discarded, field 3 descends into
`ParseColumnMeta`, everything else is skipped. -/
def ParseColumnChunkLoop : Nat → List Nat → Int → ColumnStats → Except TErr (ColumnStats × List Nat)
  | 0, _, _, _ => .error .fuel
  | fuel + 1, bs, last_id, cs =>
      match ReadFieldHeader bs last_id with
      | .error e => .error e
      | .ok (fh, last', rest) =>
          if fh.type = 0 then .ok (cs, rest)
          else if fh.id = 1 then
            match ReadString rest with
            | .error e => .error e
            | .ok (_, r) => ParseColumnChunkLoop fuel r last' cs
          else if fh.id = 2 then
            match ReadI64 rest with
            | .error e => .error e
            | .ok (_, r) => ParseColumnChunkLoop fuel r last' cs
          else if fh.id = 3 then
            match ParseColumnMetaLoop fuel rest 0 cs with
            | .error e => .error e
            | .ok (cs', r) => ParseColumnChunkLoop fuel r last' cs'
          else
            match SkipField fuel fh.type rest with
            | .error e => .error e
            | .ok r => ParseColumnChunkLoop fuel r last' cs

/-- The columns loop of `ParseRowGroup` case 1: parse `n` column chunks, each
starting from a default-constructed `ColumnStats`. -/
def ParseColumnChunksN (fuel : Nat) : Nat → List Nat → List ColumnStats →
    Except TErr (List ColumnStats × List Nat)
  | 0, bs, acc => .ok (acc, bs)
  | n + 1, bs, acc =>
      match ParseColumnChunkLoop fuel bs 0 emptyColumnStats with
      | .error e => .error e
      | .ok (cs, rest) => ParseColumnChunksN fuel n rest (acc ++ [cs])

/-- `ParseRowGroup` from metadata.cpp (field ids: columns=1,
total_byte_size=2, num_rows=3). -/
def ParseRowGroupLoop : Nat → List Nat → Int → RowGroupStats → Except TErr (RowGroupStats × List Nat)
  | 0, _, _, _ => .error .fuel
  | fuel + 1, bs, last_id, rg =>
      match ReadFieldHeader bs last_id with
      | .error e => .error e
      | .ok (fh, last', rest) =>
          if fh.type = 0 then .ok (rg, rest)
          else if fh.id = 1 then
            match ReadListHeader rest with
            | .error e => .error e
            | .ok (lh, r) =>
                match ParseColumnChunksN fuel lh.size r [] with
                | .error e => .error e
                | .ok (cols, r') =>
                    ParseRowGroupLoop fuel r' last' { rg with columns := rg.columns ++ cols }
          else if fh.id = 2 then
            match ReadI64 rest with
            | .error e => .error e
            | .ok (v, r) => ParseRowGroupLoop fuel r last' { rg with total_byte_size := v }
          else if fh.id = 3 then
            match ReadI64 rest with
            | .error e => .error e
            | .ok (v, r) => ParseRowGroupLoop fuel r last' { rg with num_rows := v }
          else
            match SkipField fuel fh.type rest with
            | .error e => .error e
            | .ok r => ParseRowGroupLoop fuel r last' rg

/-- The schema loop of `ParseFileMeta` case 1: parse `n` schema elements,
keeping a map from path to logical type.  The C++ code sets
`full_path = elem.name` (the bare element name, not a dotted path; its
`schema_stack` is declared but never used) and inserts into the
`unordered_map` only for non-root elements (`i > 0`) with a nonempty name and
logical type.  Insertion into the map is modelled by prepending, with lookup
taking the first (most recent) binding, which matches `operator[]`
overwriting. -/
def ParseSchemaListN (fuel : Nat) : Nat → Nat → List Nat → List (String × String) →
    Except TErr (List (String × String) × List Nat)
  | 0, _, bs, map => .ok (map, bs)
  | n + 1, i, bs, map =>
      match ParseSchemaElementLoop fuel bs 0 {} with
      | .error e => .error e
      | .ok (elem, rest) =>
          let map' :=
            if 0 < i ∧ elem.name ≠ "" ∧ elem.logical_type ≠ "" then
              (elem.name, elem.logical_type) :: map
            else map
          ParseSchemaListN fuel n (i + 1) rest map'

/-- The per-column logical-type application of `ParseFileMeta` case 4: look
the column's name up in the map; otherwise infer from the physical type
(BYTE_ARRAY → STRING, INT96 → TIMESTAMP_NANOS, INT32/INT64 → empty, others
unchanged). -/
def applyLogicalType (map : List (String × String)) (col : ColumnStats) : ColumnStats :=
  match map.lookup col.name with
  | some lt => { col with logical_type := lt }
  | none =>
      if col.physical_type = "BYTE_ARRAY" then { col with logical_type := "STRING" }
      else if col.physical_type = "INT96" then { col with logical_type := "TIMESTAMP_NANOS" }
      else if col.physical_type = "INT32" then { col with logical_type := "" }
      else if col.physical_type = "INT64" then { col with logical_type := "" }
      else col

/-- The row-group loop of `ParseFileMeta` case 4: parse `n` row groups and
apply the logical-type map to each group's columns. -/
def ParseRowGroupsN (fuel : Nat) (map : List (String × String)) : Nat → List Nat →
    List RowGroupStats → Except TErr (List RowGroupStats × List Nat)
  | 0, bs, acc => .ok (acc, bs)
  | n + 1, bs, acc =>
      match ParseRowGroupLoop fuel bs 0 {} with
      | .error e => .error e
      | .ok (rg, rest) =>
          ParseRowGroupsN fuel map n rest
            (acc ++ [{ rg with columns := rg.columns.map (applyLogicalType map) }])

/-- `ParseFileMeta` from metadata.cpp (the schema-aware second version):
field 1 parses the schema into the logical-type map, field 3 is `num_rows`,
field 4 parses the row groups and applies the map; other fields are
skipped. -/
def ParseFileMetaLoop : Nat → List Nat → Int → FileStats → List (String × String) →
    Except TErr (FileStats × List (String × String) × List Nat)
  | 0, _, _, _, _ => .error .fuel
  | fuel + 1, bs, last_id, fs, map =>
      match ReadFieldHeader bs last_id with
      | .error e => .error e
      | .ok (fh, last', rest) =>
          if fh.type = 0 then .ok (fs, map, rest)
          else if fh.id = 1 then
            match ReadListHeader rest with
            | .error e => .error e
            | .ok (lh, r) =>
                match ParseSchemaListN fuel lh.size 0 r map with
                | .error e => .error e
                | .ok (map', r') => ParseFileMetaLoop fuel r' last' fs map'
          else if fh.id = 3 then
            match ReadI64 rest with
            | .error e => .error e
            | .ok (v, r) => ParseFileMetaLoop fuel r last' { fs with num_rows := v } map
          else if fh.id = 4 then
            match ReadListHeader rest with
            | .error e => .error e
            | .ok (lh, r) =>
                match ParseRowGroupsN fuel map lh.size r fs.row_groups with
                | .error e => .error e
                | .ok (rgs, r') =>
                    ParseFileMetaLoop fuel r' last' { fs with row_groups := rgs } map
          else
            match SkipField fuel fh.type rest with
            | .error e => .error e
            | .ok r => ParseFileMetaLoop fuel r last' fs map

/-- `ParseFileMeta` applied to a footer slice, with the canonical sufficient
fuel (every loop iteration of the parser consumes at least one byte). -/
def ParseFileMeta (bs : List Nat) : Except TErr FileStats :=
  match ParseFileMetaLoop (bs.length + 1) bs 0 {} [] with
  | .error e => .error e
  | .ok (fs, _, _) => .ok fs

/-- `ReadLE32` from metadata.cpp: little-endian 32-bit load of the first four
bytes (out-of-range positions read as 0, which is only exercised with at
least four bytes present). -/
def readLE32 (l : List Nat) : Nat :=
  l.getD 0 0 ||| (l.getD 1 0 <<< 8) ||| (l.getD 2 0 <<< 16) ||| (l.getD 3 0 <<< 24)

/-- The `PAR1` magic bytes. -/
def PAR1 : List Nat := [80, 65, 82, 49]

/-- `ReadParquetMetadata` from metadata.cpp, over a byte source modelled as
the whole file contents.  The function reads the 8-byte trailer, checks the
trailing magic, reads `footer_len`, seeks to `file_size - 8 - footer_len` and
reads the footer.  There is no validation of `footer_len`: when it exceeds
`file_size - 8` the `size_t` subtraction underflows, the seek lands past EOF,
`ifstream::read` fails, and the zero-initialised `std::vector` buffer is
parsed instead; this is modelled by a zero-filled footer.  (A file of fewer
than 8 bytes makes the C++ read uninitialised stack memory; the model is only
meaningful, and only used, for files of at least 8 bytes.) -/
def ReadParquetMetadata (file : List Nat) : Except TErr FileStats :=
  let S := file.length
  let trailer := (file.drop (S - 8)).take 8
  if trailer.drop 4 ≠ PAR1 then .error .badMagic
  else
    let footer_len := readLE32 trailer
    let footer :=
      if footer_len ≤ S - 8 then (file.drop (S - 8 - footer_len)).take footer_len
      else List.replicate footer_len 0
    ParseFileMeta footer

/-! `decode_value` from `metadata_reader.pyx`. -/

/-- Little-endian unsigned value of a byte list (least significant byte
first), as computed by `struct.unpack`. -/
def leNat (l : List Nat) : Nat :=
  l.foldr (fun b acc => b + 256 * acc) 0

/-- Two's-complement reading of an unsigned `w`-bit value. -/
def toSigned (w : Nat) (v : Nat) : Int :=
  if v < 2 ^ (w - 1) then (v : Int) else (v : Int) - 2 ^ w

/-- One lowercase hex digit. -/
def hexDigit (n : Nat) : Char :=
  if n < 10 then Char.ofNat (48 + n) else Char.ofNat (87 + n)

/-- Python `bytes.hex()`: two lowercase hex digits per byte. -/
def hexOfBytes (b : List Nat) : String :=
  String.mk (b.flatMap fun x => [hexDigit (x / 16), hexDigit (x % 16)])

/-- The value produced by `decode_value` (metadata_reader.pyx).  A Python
`bytes` result is `bytes`, an `int` is `int`, the string `b.hex()` is `str`.
A successfully unpacked `"<f"`/`"<d"` float is represented by its raw IEEE-754
byte payload (`float32bits`/`float64bits`); the 12-byte INT96 branch is
represented by the quantities the Python code computes before formatting them
into a display string (`days` since the Unix epoch, `nanos`, `seconds`,
`micros`) — the final f-string formatting is presentational and elided. -/
inductive DecodedValue where
  | bytes (b : List Nat)
  | int (i : Int)
  | float32bits (b : List Nat)
  | float64bits (b : List Nat)
  | int96parts (days : Int) (nanos : Int) (seconds : Int) (micros : Int)
  | str (s : String)
deriving DecidableEq, Repr

/-- `decode_value` from metadata_reader.pyx.  An empty byte string returns
`b""` immediately.  `struct.unpack` with a buffer of the wrong size raises
`struct.error`, which the enclosing `try` turns into `b.hex()`; so every
length mismatch (and every unknown physical type) yields the hex string of
the raw bytes.  Python `//` and `%` are floor division and nonnegative
modulus, i.e. `Int.fdiv` and `Int.emod`. -/
def decode_value (physical_type : String) (b : List Nat) : DecodedValue :=
  if b.length = 0 then .bytes []
  else if physical_type = "INT32" then
    if b.length = 4 then .int (toSigned 32 (leNat b)) else .str (hexOfBytes b)
  else if physical_type = "INT64" then
    if b.length = 8 then .int (toSigned 64 (leNat b)) else .str (hexOfBytes b)
  else if physical_type = "FLOAT" then
    if b.length = 4 then .float32bits b else .str (hexOfBytes b)
  else if physical_type = "DOUBLE" then
    if b.length = 8 then .float64bits b else .str (hexOfBytes b)
  else if physical_type = "BYTE_ARRAY" ∨ physical_type = "FIXED_LEN_BYTE_ARRAY" then
    .bytes b
  else if physical_type = "INT96" then
    if b.length = 12 then
      let nanos := toSigned 64 (leNat (b.take 8))
      let julian_day := leNat (b.drop 8)
      .int96parts ((julian_day : Int) - 2440588) nanos
        (Int.fdiv nanos 1000000000) ((Int.emod nanos 1000000000).fdiv 1000)
    else .str (hexOfBytes b)
  else .str (hexOfBytes b)

/-! The bloom filter evaluator, from `metadata.cpp` and
`metadata_reader.pyx`. -/

/-- `Hash1` from metadata.cpp: 32-bit FNV-1a over the value bytes. -/
def Hash1 (data : List Nat) : Nat :=
  data.foldl (fun h c => ((h ^^^ c) * 16777619) % 2 ^ 32) 2166136261

/-- `Hash2` from metadata.cpp: djb2 over the value bytes. -/
def Hash2 (data : List Nat) : Nat :=
  data.foldl (fun h c => (((h <<< 5) + h + c) % 2 ^ 32)) 5381

/-- One probe of the loop body of `TestBloomFilter`: block index is
`hash % num_blocks`, bit index is `(hash / num_blocks) % 256` within the
32-byte block; the `byte_idx >= block_size` safety check of the C++ code
(`continue`, i.e. treat the lane as passing) is unreachable but kept. -/
def bloomBitSet (blocks_data : List Nat) (num_blocks : Nat) (hash : Nat) : Bool :=
  let block_idx := hash % num_blocks
  let bit_idx := (hash / num_blocks) % 256
  let byte_idx := bit_idx / 8
  let bit_off := bit_idx % 8
  if 32 ≤ byte_idx then true
  else (blocks_data.getD (block_idx * 32 + byte_idx) 0) &&& (1 <<< bit_off) ≠ 0

/-- The probe loop of `TestBloomFilter`: lane `i` uses
`hash = h1 + i * h2` (`uint32_t` wrap); the C++ early `return false` on an
unset bit is equivalent to requiring all probes to pass. -/
def bloomLoop (blocks_data : List Nat) (num_blocks h1 h2 num_hash_functions : Nat) : Bool :=
  (List.range num_hash_functions).all fun i =>
    bloomBitSet blocks_data num_blocks ((h1 + i * h2) % 2 ^ 32)

/-- The length-determination block of `TestBloomFilter` (metadata.cpp): when
the caller supplies a positive `bloom_length` it is used as-is; otherwise the
12-byte header at `bloom_offset` is probed (`none` models the early
`return false` when fewer than 12 bytes remain), and implausible header
values fall back to a default length of 1024, else `12 + num_blocks * 32`. -/
def bloomActualLength (file : List Nat) (o : Nat) (bloom_length : Int) : Option Nat :=
  if 0 < bloom_length then some bloom_length.toNat
  else if file.length < o + 12 then none
  else
    let hdr := (file.drop o).take 12
    let num_hash_functions := readLE32 hdr
    let num_blocks := readLE32 (hdr.drop 4)
    if num_hash_functions = 0 ∨ num_blocks = 0 ∨ 10 < num_hash_functions ∨ 1024 < num_blocks then
      some 1024
    else some (12 + num_blocks * 32)

/-- The read-and-test block of `TestBloomFilter` (metadata.cpp): reading
`actual` bytes at offset `o` fails (`!f.good()`, return `false`) when fewer
bytes remain; then the header is validated and the probe loop runs. -/
def bloomEval (file : List Nat) (o actual : Nat) (value : List Nat) : Bool :=
  if file.length < o + actual then false
  else
    let data := (file.drop o).take actual
    if actual < 12 then false
    else
      let num_hash_functions := readLE32 data
      let num_blocks := readLE32 (data.drop 4)
      if num_hash_functions = 0 ∨ num_blocks = 0 ∨
          10 < num_hash_functions ∨ 1024 < num_blocks then false
      else if actual < 12 + num_blocks * 32 then false
      else bloomLoop (data.drop 12) num_blocks (Hash1 value) (Hash2 value) num_hash_functions

/-- `TestBloomFilter` from metadata.cpp.  The byte source is
`Option (List Nat)`: `none` models a file that cannot be opened
(`!f.is_open()`), `some file` gives the file contents.  A negative offset or
any internal failure returns `false`. -/
def TestBloomFilter (fileOpt : Option (List Nat)) (bloom_offset bloom_length : Int)
    (value : List Nat) : Bool :=
  if bloom_offset < 0 then false
  else
    match fileOpt with
    | none => false
    | some file =>
        match bloomActualLength file bloom_offset.toNat bloom_length with
        | none => false
        | some actual => bloomEval file bloom_offset.toNat actual value

/-- `test_bloom_filter` from metadata_reader.pyx: returns `False` outright
for a negative offset, otherwise defers to the C++ `TestBloomFilter`. -/
def test_bloom_filter (fileOpt : Option (List Nat)) (bloom_offset bloom_length : Int)
    (value : List Nat) : Bool :=
  if bloom_offset < 0 then false
  else TestBloomFilter fileOpt bloom_offset bloom_length value

/-! Encoders used to quantify over Thrift-encoded inputs.  These are test
harness, not part of the source: they produce the wire bytes that the
source's decoder consumes. -/

/-- Standard LEB128 varint encoding (the inverse of `ReadVarint`). -/
def varintEncode (n : Nat) : List Nat :=
  if n < 128 then [n] else (n % 128 + 128) :: varintEncode (n / 128)
termination_by n
decreasing_by exact Nat.div_lt_self (by omega) (by omega)

/-- A length-prefixed Thrift binary field payload for a byte string of fewer
than 128 bytes (single-byte varint length). -/
def encStr (s : List Nat) : List Nat := s.length :: s

/-- Thrift Compact encoding of a `Statistics` struct carrying all four of
the fields `max` (id 1), `min` (id 2), `max_value` (id 5) and `min_value`
(id 6), in that order, with short-form delta field headers, followed by STOP.
Header bytes: `0x18` (delta 1, type BINARY), `0x18`, `0x38` (delta 3),
`0x18`. -/
def encodeStatistics (legacy_max legacy_min v2_max v2_min : List Nat) : List Nat :=
  24 :: legacy_max.length :: (legacy_max ++
    24 :: legacy_min.length :: (legacy_min ++
      56 :: v2_max.length :: (v2_max ++
        24 :: v2_min.length :: (v2_min ++ [0]))))

/-- The bad-header predicate of `TestBloomFilter` (metadata.cpp), read off
the 12 header bytes stored at offset `o` of the file: `num_hash_functions`
zero or above 10, or `num_blocks` zero or above 1024. -/
def bloomHeaderNhf (file : List Nat) (o : Nat) : Nat :=
  readLE32 ((file.drop o).take 12)

/-- The `num_blocks` header word at offset `o`. -/
def bloomHeaderNb (file : List Nat) (o : Nat) : Nat :=
  readLE32 (((file.drop o).take 12).drop 4)

/-- Implausible bloom filter header values at offset `o`. -/
def bloomHeaderBad (file : List Nat) (o : Nat) : Prop :=
  bloomHeaderNhf file o = 0 ∨ bloomHeaderNb file o = 0 ∨
    10 < bloomHeaderNhf file o ∨ 1024 < bloomHeaderNb file o

/-- The internal failure conditions of the bloom-filter evaluator at offset
`o`: unopenable file, fewer than 12 header bytes available, implausible
header values, or fewer bytes available than the 12-byte header plus
`num_blocks * 32` bytes of body. -/
def bloomFailure (fileOpt : Option (List Nat)) (o : Nat) : Prop :=
  fileOpt = none ∨
    ∃ file, fileOpt = some file ∧
      (file.length < o + 12 ∨ bloomHeaderBad file o ∨
        file.length < o + 12 + bloomHeaderNb file o * 32)

/-- Concrete FileMetaData footer for the dotted-path scenario: schema is
root `m` (1 child) → group `a` (1 child) → leaf `b` with converted_type 6
(DATE); num_rows 1; one row group with one column chunk of physical type
INT32 (code 1) and path_in_schema `["a", "b"]`. -/
def C3footer : List Nat :=
  [25, 60,
   72, 1, 109, 21, 2, 0,
   72, 1, 97, 21, 2, 0,
   72, 1, 98, 37, 12, 0,
   38, 2,
   25, 28,
   25, 28,
   60,
   21, 2, 41, 40, 1, 97, 1, 98, 0,
   0,
   22, 0, 22, 2, 0,
   0]

/-! Helper lemmas. -/

theorem and_127_of_lt (L : Nat) (h : L < 128) : L &&& 127 = L := by
  have h7 : (127 : Nat) = 2 ^ 7 - 1 := by norm_num
  rw [h7, Nat.and_pow_two_sub_one_eq_mod, Nat.mod_eq_of_lt h]

theorem and_128_of_lt (L : Nat) (h : L < 128) : L &&& 128 = 0 := by
  apply Nat.eq_of_testBit_eq
  intro i
  rw [Nat.testBit_and, Nat.zero_testBit]
  have h128 : (128 : Nat) = 2 ^ 7 := by norm_num
  rw [h128, Nat.testBit_two_pow]
  by_cases h7 : 7 = i
  · subst h7
    rw [Nat.testBit_lt_two_pow (by norm_num at h ⊢; omega)]
    simp
  · simp [h7]

theorem and_128_of_ge (b : Nat) (h1 : 128 ≤ b) (h2 : b < 256) : b &&& 128 = 128 := by
  apply Nat.eq_of_testBit_eq
  intro i
  rw [Nat.testBit_and]
  by_cases h7 : 7 = i
  · subst h7
    have hb : b.testBit 7 = true := by
      have hdiv : b / 128 = 1 := by omega
      rw [Nat.testBit_to_div_mod, show (2 : Nat) ^ 7 = 128 by norm_num, hdiv]
      rfl
    simp [hb]
  · have h128 : (128 : Nat) = 2 ^ 7 := by norm_num
    rw [h128, Nat.testBit_two_pow]
    simp [h7]

theorem ReadVarint_single (L : Nat) (h : L < 128) (rest : List Nat) :
    ReadVarint (L :: rest) = .ok (L, rest) := by
  have h64 : L < 18446744073709551616 := by omega
  simp [ReadVarint, ReadVarintGo, and_127_of_lt L h, and_128_of_lt L h,
    Nat.mod_eq_of_lt h64]

theorem ReadString_enc (s rest : List Nat) (h : s.length < 128) :
    ReadString (s.length :: (s ++ rest)) = .ok (s, rest) := by
  rw [ReadString, ReadVarint_single _ h]
  have hlen : ¬ (s ++ rest).length < s.length := by
    simp [List.length_append]
  simp [hlen, List.take_left, List.drop_left]

/-! Claim theorems. -/

/-- Claim C4 (code_bug evaluation): on the header byte `0x05` (wire type 5,
modifier 0) followed by the varint `0x03`, `ReadFieldHeader` decodes the
absolute field id as the plain unsigned varint 3, whereas the zig-zag
decoding of 3 that the Compact Protocol (and the claim) prescribe is −2. -/
theorem claim4_plain_varint_field_id :
    ReadFieldHeader [5, 3] 0 = .ok (⟨3, 5⟩, 3, []) ∧ ZigZagDecode 3 = -2 :=
  ⟨rfl, rfl⟩

/-- Claim C7 (code_bug evaluation): skipping a MAP field over the bytes
`[0x03, 0x33, 7, 7, 7, 7, 7, 7]` — which in Thrift Compact is a 3-entry
(BYTE, BYTE) map: varint size `0x03`, type byte `0x33`, six payload bytes —
consumes only the single byte `0x03` (its high nibble, 0, is taken as the
size), leaving the remaining seven bytes unconsumed; an empty map byte `0x00`
also consumes exactly one byte. -/
theorem claim7_map_skip_nibble_size :
    SkipField 16 11 [3, 51, 7, 7, 7, 7, 7, 7] = .ok [51, 7, 7, 7, 7, 7, 7] ∧
      SkipField 16 11 [0] = .ok [] :=
  ⟨rfl, rfl⟩

/-- Claim C8 (counterexample): a varint of eleven continuation bytes followed
by a terminator — more than 10 continuation bytes — is decoded without any
error. -/
theorem claim8_cex_no_cap :
    ReadVarint (List.replicate 11 128 ++ [0]) = .ok (0, []) := rfl

/-- Claim C1 (counterexample): in a Statistics struct in which all four of
the fields max (id 1) = `[98]`, min (id 2) = `[97]`, max_value (id 5) = `[]`
and min_value (id 6) = `[]` are present, the decoded min is the legacy value
`[97]`, not the v2 value `[]` (and likewise for max): presence of the v2
fields does not make them win when their value is the empty byte string. -/
theorem claim1_cex_empty_v2 :
    ParseStatistics 9 (encodeStatistics [98] [97] [] []) emptyColumnStats =
      .ok ({ emptyColumnStats with min := [97], max := [98] }, []) ∧
      ([97] : List Nat) ≠ [] :=
  ⟨rfl, by decide⟩

/-- Claim C5 (code_bug evaluation): in a Statistics struct carrying the
legacy min (id 2) = `[97]` and a present-but-empty min_value (id 6) = `[]`
(wire bytes `[0x28, 0x01, 0x61, 0x48, 0x00, 0x00]`), the decoded min is the
legacy `[97]`: the empty v2 byte string is not preserved, it is replaced by
the legacy value, because `ParseStatistics` tests emptiness, not presence. -/
theorem claim5_empty_min_value_replaced :
    ParseStatistics 5 [40, 1, 97, 72, 0, 0] emptyColumnStats =
      .ok ({ emptyColumnStats with min := [97] }, []) ∧ ([97] : List Nat) ≠ [] :=
  ⟨rfl, by decide⟩

/-- Claim C3 (code_bug evaluation): for the schema root → group `a`
(num_children 1) → leaf `b` with logical type DATE, and a ColumnChunk with
path_in_schema `["a", "b"]`, the parser produces the chunk name `"a.b"` but
the schema pass maps the bare element name `"b"` — not the dotted path
`"a.b"` — to DATE, so the chunk's logical type falls back to the INT32
default `""` instead of receiving DATE. -/
theorem claim3_dotted_path_not_used :
    ParseFileMetaLoop (C3footer.length + 1) C3footer 0 {} [] =
      .ok (⟨1, [⟨1, 0, [{ name := "a.b", physical_type := "INT32", logical_type := "" }]⟩]⟩,
        [("b", "DATE")], []) ∧
      ("" : String) ≠ "DATE" :=
  ⟨rfl, by decide⟩

/-- Claim C2 (counterexample): the 9-byte file `[0x00, 2,0,0,0, PAR1]` has a
trailing `PAR1` magic and declares footer_len = 2, which exceeds
S − 8 = 1; `ReadParquetMetadata` does not fail with any error — the failed
footer read leaves a zero-filled buffer and an empty `FileStats` is
returned. -/
theorem claim2_cex_oversized_footer_no_error :
    ReadParquetMetadata [0, 2, 0, 0, 0, 80, 65, 82, 49] = .ok ⟨0, []⟩ := rfl

/-- Claim C6 (counterexample): calling `test_bloom_filter` with the −1
absent-sentinel offset returns the ordinary boolean `false` ("definitely
absent"); no error value exists in the function's return type, so the result
is not a `BloomAbsent` error. -/
theorem claim6_cex_negative_offset_false :
    test_bloom_filter none (-1) (-1) [] = false := rfl

/-- Claim C9 (counterexample): decoding an INT32 statistics byte string of
length 1 does not return the raw bytes unchanged — it returns the lowercase
hex string `"01"` of the bytes. -/
theorem claim9_cex_hex_not_raw :
    decode_value "INT32" [1] ≠ DecodedValue.bytes [1] ∧
      decode_value "INT32" [1] = .str "01" :=
  ⟨by decide, rfl⟩

/-- Claim C6 (amended): for every call of `test_bloom_filter` with a negative
`bloom_offset` (the −1 absent sentinel), the result is the ordinary boolean
`False` — the caller-facing "no bloom filter" answer — not an error value. -/
theorem claim6_negative_offset_returns_false (fileOpt : Option (List Nat))
    (bloom_offset bloom_length : Int) (value : List Nat) (h : bloom_offset < 0) :
    test_bloom_filter fileOpt bloom_offset bloom_length value = false := by
  simp [test_bloom_filter, h]

/-- Claim C6 witness: a concrete negative-offset call returning `false`. -/
theorem claim6_witness :
    test_bloom_filter (some [1, 2, 3]) (-7) 5 [97] = false :=
  claim6_negative_offset_returns_false (some [1, 2, 3]) (-7) 5 [97] (by decide)

/-- Claim C9 (amended): for every physical type with a fixed statistics width
(INT32: 4 bytes, INT64: 8, FLOAT: 4, DOUBLE: 8, INT96: 12), decoding a
nonempty min/max byte string whose length differs from that width does not
fail and returns the lowercase hex string of the raw bytes (an empty byte
string returns the empty byte string instead). -/
theorem claim9_length_mismatch_yields_hex (b : List Nat) (hne : b ≠ []) :
    (b.length ≠ 4 → decode_value "INT32" b = .str (hexOfBytes b)) ∧
    (b.length ≠ 8 → decode_value "INT64" b = .str (hexOfBytes b)) ∧
    (b.length ≠ 4 → decode_value "FLOAT" b = .str (hexOfBytes b)) ∧
    (b.length ≠ 8 → decode_value "DOUBLE" b = .str (hexOfBytes b)) ∧
    (b.length ≠ 12 → decode_value "INT96" b = .str (hexOfBytes b)) := by
  have h0 : ¬ b.length = 0 := by simpa using hne
  refine ⟨fun h => ?_, fun h => ?_, fun h => ?_, fun h => ?_, fun h => ?_⟩ <;>
    simp [decode_value, h0, h]

/-- Claim C9 witness: a 1-byte INT32 statistic decodes to the hex string. -/
theorem claim9_witness : decode_value "INT32" [7] = .str "07" :=
  (claim9_length_mismatch_yields_hex [7] (by decide)).1 (by decide)

/-- Claim C1 (amended): for every Thrift `Statistics` struct in which the
legacy max/min (ids 1/2) and the v2 max_value/min_value (ids 5/6) fields are
all present (encoded here with short-form headers and sub-128-byte values)
and the v2 values are nonempty byte strings, the decoded min and max equal
the v2 values, not the legacy ones.  (The nonemptiness proviso is forced by
`claim1_cex_empty_v2`: the code selects on nonemptiness, not presence.) -/
theorem claim1_v2_nonempty_wins (fuel : Nat) (lM lm vM vm : List Nat) (cs : ColumnStats)
    (hlM : lM.length < 128) (hlm : lm.length < 128)
    (hvM : vM.length < 128) (hvm : vm.length < 128)
    (hM : vM ≠ []) (hm : vm ≠ []) :
    ParseStatistics (fuel + 5) (encodeStatistics lM lm vM vm) cs =
      .ok ({ cs with min := vm, max := vM }, []) := by
  simp [ParseStatistics, ParseStatisticsLoop, encodeStatistics, ReadFieldHeader, toInt16,
    ReadString_enc, hlM, hlm, hvM, hvm, hM, hm]

/-- Claim C1 witness: the spec's stats-precedence scenario — legacy values
present, v2 values `[5,0,0,0]` / `[10,0,0,0]` — decodes to the v2 values. -/
theorem claim1_witness :
    ParseStatistics 5 (encodeStatistics [2] [1] [10, 0, 0, 0] [5, 0, 0, 0]) emptyColumnStats =
      .ok ({ emptyColumnStats with min := [5, 0, 0, 0], max := [10, 0, 0, 0] }, []) :=
  claim1_v2_nonempty_wins 0 [2] [1] [10, 0, 0, 0] [5, 0, 0, 0] emptyColumnStats
    (by decide) (by decide) (by decide) (by decide) (by decide) (by decide)

theorem lor_shiftLeft_eq_add (a b s : Nat) (h : a < 2 ^ s) :
    a ||| (b <<< s) = b <<< s + a := by
  rw [Nat.shiftLeft_eq, Nat.or_comm, Nat.mul_comm b (2 ^ s), ← Nat.mul_add_lt_is_or h b]

theorem ReadVarintGo_encode (n : Nat) : ∀ (acc shift : Nat) (rest : List Nat),
    acc < 2 ^ shift → acc + n * 2 ^ shift < 2 ^ 64 →
    ReadVarintGo (varintEncode n ++ rest) acc shift = .ok (acc + n * 2 ^ shift, rest) := by
  induction n using Nat.strong_induction_on with
  | _ n ih =>
    intro acc shift rest hacc hbound
    rw [varintEncode]
    by_cases h : n < 128
    · rw [if_pos h]
      have hval : (acc ||| (n <<< shift)) % 2 ^ 64 = acc + n * 2 ^ shift := by
        rw [lor_shiftLeft_eq_add acc n shift hacc, Nat.shiftLeft_eq, Nat.add_comm,
          Nat.mod_eq_of_lt hbound]
      rw [List.cons_append, List.nil_append]
      simp only [ReadVarintGo, and_127_of_lt n h, and_128_of_lt n h, hval]
      simp
    · rw [if_neg h]
      have h128 : 128 ≤ n := by omega
      have hb127 : (n % 128 + 128) &&& 127 = n % 128 := by
        rw [show (127 : Nat) = 2 ^ 7 - 1 by norm_num, Nat.and_pow_two_sub_one_eq_mod]
        show (n % 128 + 128) % 128 = n % 128
        omega
      have hb128 : (n % 128 + 128) &&& 128 = 128 :=
        and_128_of_ge _ (by omega) (by omega)
      have hXpos : 0 < 2 ^ shift := Nat.pos_pow_of_pos shift (by omega)
      have hmod : n % 128 + 128 * (n / 128) = n := Nat.mod_add_div n 128
      have hX7 : 2 ^ (shift + 7) = 2 ^ shift * 128 := by rw [Nat.pow_add]
      have hsplit : n % 128 * 2 ^ shift + n / 128 * 2 ^ (shift + 7) = n * 2 ^ shift := by
        rw [hX7]
        calc n % 128 * 2 ^ shift + n / 128 * (2 ^ shift * 128)
            = (n % 128 + 128 * (n / 128)) * 2 ^ shift := by ring
          _ = n * 2 ^ shift := by rw [hmod]
      have hacc' : acc + n % 128 * 2 ^ shift < 2 ^ (shift + 7) := by
        have h1 : n % 128 * 2 ^ shift ≤ 127 * 2 ^ shift :=
          Nat.mul_le_mul_right _ (by omega)
        have h2 : (127 : Nat) * 2 ^ shift + 2 ^ shift = 2 ^ (shift + 7) := by
          rw [hX7]; ring
        omega
      have hbound2 : acc + n % 128 * 2 ^ shift < 2 ^ 64 := by
        have h1 : n % 128 * 2 ^ shift ≤ n * 2 ^ shift :=
          Nat.mul_le_mul_right _ (Nat.mod_le n 128)
        omega
      have hval : (acc ||| ((n % 128) <<< shift)) % 2 ^ 64 = acc + n % 128 * 2 ^ shift := by
        rw [lor_shiftLeft_eq_add acc (n % 128) shift hacc, Nat.shiftLeft_eq, Nat.add_comm,
          Nat.mod_eq_of_lt hbound2]
      have hbound' : acc + n % 128 * 2 ^ shift + n / 128 * 2 ^ (shift + 7) < 2 ^ 64 := by
        rw [Nat.add_assoc, hsplit]; exact hbound
      have hdiv : n / 128 < n := Nat.div_lt_self (by omega) (by omega)
      have step : ReadVarintGo ((n % 128 + 128) :: (varintEncode (n / 128) ++ rest)) acc shift =
          ReadVarintGo (varintEncode (n / 128) ++ rest) (acc + n % 128 * 2 ^ shift)
            (shift + 7) := by
        simp only [ReadVarintGo, hb127, hb128, hval]
        rw [if_neg (by omega : ¬ (128 : Nat) = 0)]
      rw [List.cons_append, step, ih (n / 128) hdiv _ (shift + 7) rest hacc' hbound',
        Nat.add_assoc, hsplit]

theorem ReadVarintGo_eof (bs : List Nat) (h : ∀ b ∈ bs, 128 ≤ b ∧ b < 256) :
    ∀ acc shift, ReadVarintGo bs acc shift = .error .eof := by
  induction bs with
  | nil => intro acc shift; rfl
  | cons b rest ih =>
      intro acc shift
      obtain ⟨hb1, hb2⟩ := h b (List.mem_cons_self b rest)
      rw [ReadVarintGo, and_128_of_ge b hb1 hb2]
      rw [if_neg (by omega)]
      exact ih (fun x hx => h x (List.mem_cons_of_mem b hx)) _ _

theorem ReadVarintGo_continuations (k : Nat) : ∀ shift,
    ReadVarintGo (List.replicate k 128 ++ [0]) 0 shift = .ok (0, []) := by
  induction k with
  | zero => intro shift; simp [ReadVarintGo]
  | succ k ih =>
      intro shift
      rw [List.replicate_succ, List.cons_append]
      simp only [ReadVarintGo, show ((128 : Nat) &&& 127) = 0 from rfl,
        show ((128 : Nat) &&& 128) = 128 from rfl, Nat.zero_shiftLeft, Nat.zero_or,
        Nat.zero_mod]
      rw [if_neg (by omega : ¬ (128 : Nat) = 0)]
      exact ih (shift + 7)

/-- Claim C8 (amended): `ReadVarint` decodes successive 7-bit groups
LSB-first with the high bit as continuation marker (the LEB128 encoding of
any `n < 2^64` round-trips), fails with the EOF error — the code's
truncated-input signal — when the input ends mid-varint (every byte a
continuation byte), and imposes no cap on the number of continuation bytes:
any number of `0x80` bytes followed by a terminator decodes without error.
(The MalformedEncoding cap of the claim does not exist in the code, per
`claim8_cex_no_cap`.) -/
theorem claim8_varint_decoding :
    (∀ n rest, n < 2 ^ 64 → ReadVarint (varintEncode n ++ rest) = .ok (n, rest)) ∧
    (∀ bs, (∀ b ∈ bs, 128 ≤ b ∧ b < 256) → ReadVarint bs = .error .eof) ∧
    (∀ k, ReadVarint (List.replicate k 128 ++ [0]) = .ok (0, [])) := by
  refine ⟨fun n rest hn => ?_, fun bs h => ReadVarintGo_eof bs h 0 0,
    fun k => ReadVarintGo_continuations k 0⟩
  have := ReadVarintGo_encode n 0 0 rest (by norm_num) (by simpa using hn)
  simpa [ReadVarint] using this

/-- Claim C8 witness: the two-byte varint of 300 round-trips, and an input
that is all continuation bytes fails with the EOF error. -/
theorem claim8_witness :
    ReadVarint (varintEncode 300 ++ [9]) = .ok (300, [9]) ∧
      ReadVarint [200, 170] = .error .eof :=
  ⟨claim8_varint_decoding.1 300 [9] (by norm_num),
   claim8_varint_decoding.2.1 [200, 170] (by decide)⟩

/-- Claim C2 (amended): for every byte source of size `S ≥ 8` whose trailing
4 bytes are `PAR1`, `ReadParquetMetadata` performs no footer-length
validation: when the little-endian u32 `footer_len` read from
`bytes[-8:-4]` is 0 it fails with the EOF error (parsing an empty footer);
when `footer_len > S − 8` the footer read fails, leaving a zero-filled
buffer, and an empty `FileStats` is returned with no error; and when
`0 < footer_len ≤ S − 8` the footer slice parsed is exactly
`[S − 8 − footer_len, S − 8)`. -/
theorem claim2_no_footer_len_validation (file : List Nat) (h8 : 8 ≤ file.length)
    (hmagic : file.drop (file.length - 4) = PAR1) :
    (readLE32 ((file.drop (file.length - 8)).take 8) = 0 →
      ReadParquetMetadata file = .error .eof) ∧
    (file.length - 8 < readLE32 ((file.drop (file.length - 8)).take 8) →
      ReadParquetMetadata file = .ok ⟨0, []⟩) ∧
    (0 < readLE32 ((file.drop (file.length - 8)).take 8) →
      readLE32 ((file.drop (file.length - 8)).take 8) ≤ file.length - 8 →
      ReadParquetMetadata file =
        ParseFileMeta ((file.drop (file.length - 8 -
            readLE32 ((file.drop (file.length - 8)).take 8))).take
          (readLE32 ((file.drop (file.length - 8)).take 8)))) := by
  have e1 : ((file.drop (file.length - 8)).take 8).drop 4 =
      ((file.drop (file.length - 8)).drop 4).take 4 := by
    simpa using List.drop_take 8 4 (file.drop (file.length - 8))
  have e2 : (file.drop (file.length - 8)).drop 4 = file.drop (file.length - 4) := by
    rw [List.drop_drop]
    congr 1
    omega
  have e3 : (file.drop (file.length - 4)).take 4 = file.drop (file.length - 4) :=
    List.take_of_length_le (by rw [List.length_drop]; omega)
  have hcond : ¬ (((file.drop (file.length - 8)).take 8).drop 4 ≠ PAR1) := by
    rw [e1, e2, e3, hmagic]
    simp
  refine ⟨fun h0 => ?_, fun hgt => ?_, fun hpos hle => ?_⟩
  · simp only [ReadParquetMetadata]
    rw [if_neg hcond, h0, if_pos (Nat.zero_le _)]
    rw [List.take_zero]
    rfl
  · simp only [ReadParquetMetadata]
    rw [if_neg hcond, if_neg (by omega :
      ¬ readLE32 ((file.drop (file.length - 8)).take 8) ≤ file.length - 8)]
    obtain ⟨k, hk⟩ : ∃ k, readLE32 ((file.drop (file.length - 8)).take 8) = k + 1 :=
      ⟨readLE32 ((file.drop (file.length - 8)).take 8) - 1, by omega⟩
    rw [hk, List.replicate_succ]
    simp [ParseFileMeta, ParseFileMetaLoop, ReadFieldHeader]
  · simp only [ReadParquetMetadata]
    rw [if_neg hcond, if_pos hle]

/-- Claim C2 witness: a 9-byte file with `footer_len = 1`; the parsed footer
slice is exactly the single byte at index 0, and parsing it (one zero byte)
yields the empty `FileStats`. -/
theorem claim2_witness :
    ReadParquetMetadata [0, 1, 0, 0, 0, 80, 65, 82, 49] =
      ParseFileMeta (([0, 1, 0, 0, 0, 80, 65, 82, 49].drop 0).take 1) :=
  ((claim2_no_footer_len_validation [0, 1, 0, 0, 0, 80, 65, 82, 49]
      (by decide) (by decide)).2.2 (by decide) (by decide))

theorem getD_take_eq (l : List Nat) (n i : Nat) (h : i < n) :
    (l.take n).getD i 0 = l.getD i 0 := by
  simp [List.getD_eq_getElem?_getD, List.getElem?_take_of_lt h]

theorem getD_drop_eq (l : List Nat) (k i : Nat) :
    (l.drop k).getD i 0 = l.getD (k + i) 0 := by
  simp [List.getD_eq_getElem?_getD, List.getElem?_drop]

theorem readLE32_take (l : List Nat) (n : Nat) (h : 4 ≤ n) :
    readLE32 (l.take n) = readLE32 l := by
  unfold readLE32
  rw [getD_take_eq _ _ _ (by omega), getD_take_eq _ _ _ (by omega),
    getD_take_eq _ _ _ (by omega), getD_take_eq _ _ _ (by omega)]

theorem readLE32_take_drop4 (l : List Nat) (n : Nat) (h : 8 ≤ n) :
    readLE32 ((l.take n).drop 4) = readLE32 (l.drop 4) := by
  unfold readLE32
  rw [getD_drop_eq, getD_drop_eq, getD_drop_eq, getD_drop_eq,
    getD_drop_eq, getD_drop_eq, getD_drop_eq, getD_drop_eq,
    getD_take_eq _ _ _ (by omega), getD_take_eq _ _ _ (by omega),
    getD_take_eq _ _ _ (by omega), getD_take_eq _ _ _ (by omega)]

theorem bloomEval_false (file : List Nat) (o actual : Nat) (value : List Nat)
    (hcase : file.length < o + 12 ∨ bloomHeaderBad file o ∨
      file.length < o + 12 + bloomHeaderNb file o * 32) :
    bloomEval file o actual value = false := by
  by_cases hr : file.length < o + actual
  · simp [bloomEval, hr]
  · by_cases h12 : actual < 12
    · simp [bloomEval, hr, h12]
    · have hle : o + 12 ≤ file.length := by omega
      have hda : readLE32 ((file.drop o).take actual) = bloomHeaderNhf file o := by
        rw [readLE32_take _ _ (by omega), bloomHeaderNhf, readLE32_take _ _ (by omega)]
      have hdb : readLE32 (((file.drop o).take actual).drop 4) = bloomHeaderNb file o := by
        rw [readLE32_take_drop4 _ _ (by omega), bloomHeaderNb,
          readLE32_take_drop4 _ _ (by omega)]
      simp only [bloomEval]
      rw [if_neg hr, if_neg h12, hda, hdb]
      rcases hcase with hc1 | hc2 | hc3
      · exact absurd hle (by omega)
      · rw [if_pos (by simpa [bloomHeaderBad] using hc2)]
      · by_cases hbad : bloomHeaderNhf file o = 0 ∨ bloomHeaderNb file o = 0 ∨
            10 < bloomHeaderNhf file o ∨ 1024 < bloomHeaderNb file o
        · rw [if_pos hbad]
        · rw [if_neg hbad, if_pos (by omega)]

/-- Claim C10: every internal failure path of the bloom-filter evaluator —
an unopenable file, fewer than 12 header bytes available at the offset, a
header declaring `num_hash_functions` equal to 0 or greater than 10 or
`num_blocks` equal to 0 or greater than 1024, or fewer bytes available than
the 12-byte header plus `num_blocks * 32` bytes of body — makes
`TestBloomFilter` return `false` ("definitely absent"); the function is
`Bool`-valued and total, so no error is raised or surfaced. -/
theorem claim10_bloom_failure_returns_false (fileOpt : Option (List Nat))
    (bloom_offset bloom_length : Int) (value : List Nat) (hoff : 0 ≤ bloom_offset)
    (hfail : bloomFailure fileOpt bloom_offset.toNat) :
    TestBloomFilter fileOpt bloom_offset bloom_length value = false := by
  simp only [TestBloomFilter]
  rw [if_neg (by omega : ¬ bloom_offset < 0)]
  rcases hfail with hnone | ⟨file, hsome, hcase⟩
  · rw [hnone]
  · rw [hsome]
    show (match bloomActualLength file bloom_offset.toNat bloom_length with
      | none => false
      | some actual => bloomEval file bloom_offset.toNat actual value) = false
    by_cases hl : 0 < bloom_length
    · rw [show bloomActualLength file bloom_offset.toNat bloom_length =
          some bloom_length.toNat by simp [bloomActualLength, hl]]
      exact bloomEval_false file _ _ value hcase
    · by_cases h12 : file.length < bloom_offset.toNat + 12
      · rw [show bloomActualLength file bloom_offset.toNat bloom_length = none by
          simp [bloomActualLength, hl, h12]]
      · by_cases hbad : bloomHeaderBad file bloom_offset.toNat
        · rw [show bloomActualLength file bloom_offset.toNat bloom_length = some 1024 by
            simp only [bloomActualLength]
            rw [if_neg hl, if_neg h12,
              if_pos (by simpa [bloomHeaderBad, bloomHeaderNhf, bloomHeaderNb] using hbad)]]
          exact bloomEval_false file _ _ value (Or.inr (Or.inl hbad))
        · rcases hcase with hc1 | hc2 | hc3
          · exact absurd hc1 h12
          · exact absurd hc2 hbad
          · rw [show bloomActualLength file bloom_offset.toNat bloom_length =
                some (12 + bloomHeaderNb file bloom_offset.toNat * 32) by
              simp only [bloomActualLength]
              rw [if_neg hl, if_neg h12,
                if_neg (by simpa [bloomHeaderBad, bloomHeaderNhf, bloomHeaderNb] using hbad)]
              rfl]
            exact bloomEval_false file _ _ value (Or.inr (Or.inr hc3))

/-- Claim C10 witness: an unopenable file (and separately, a 4-byte file too
short for the 12-byte header) yields `false`. -/
theorem claim10_witness :
    TestBloomFilter none 0 (-1) [] = false ∧
      TestBloomFilter (some [1, 2, 3, 4]) 0 (-1) [97] = false :=
  ⟨claim10_bloom_failure_returns_false none 0 (-1) [] (by decide) (Or.inl rfl),
   claim10_bloom_failure_returns_false (some [1, 2, 3, 4]) 0 (-1) [97] (by decide)
     (Or.inr ⟨[1, 2, 3, 4], rfl, Or.inl (by decide)⟩)⟩

end Rugo

